import Mathlib

/-!
Shallow embedding of the two conversion pipelines of `snmpsim_tools`:

* `scripts/qa_device_simulator_to_snmpsim.py` (Pipeline A): the `OidType`
  enumeration and its name lookup, the XML definition parser, the
  definition-to-record converter and the snmprec emitter, together with the
  malformed-entity sanitizer `ValidateAndReplaceXmlFile`.
* `scripts/snmpwalk_to_snmpsim.py` (Pipeline B): the stateful line
  normalizer of `main` (control-character stripping, printability check,
  continuation stitching, unit rewriting, absent-object dropping and the
  one-line-lookback write).

Python strings are modelled as Lean `String`s viewed as lists of characters;
the modelling notes for each library primitive (regular expressions,
`str.isprintable`, `float`, `hasattr`) are given at the corresponding
definition.
-/

/-- Name lookup of the `OidType` enumeration (`OidType[name].value`).
The member list is exactly the one in the source: `ObjectIdentifier` is
commented out there, so it is not a member; `IPAddress` and `IpAddress` are
two member names with the same value 64 (a Python `Enum` alias also appears
in name lookup). -/
def OidType (name : String) : Option Nat :=
  match name with
  | "Integer32" => some 2
  | "OctetString" => some 4
  | "Null" => some 5
  | "ObjectId" => some 6
  | "IPAddress" => some 64
  | "IpAddress" => some 64
  | "Counter32" => some 65
  | "Gauge32" => some 66
  | "TimeTicks" => some 67
  | "Opaque" => some 68
  | "Counter64" => some 70
  | _ => none

/-- Source function `enumContainsName`, specialized to the only enum it is
called with (`OidType`): `enumType[name]` succeeds exactly when the name is
a member name. -/
def enumContainsName (name : String) : Bool :=
  (OidType name).isSome

/-- Source class `SnmpsimRecord` (three read-only fields). -/
structure SnmpsimRecord where
  oid : String
  oidType : Nat
  value : String
  deriving DecidableEq

/-- Source class `QADeviceSimulatorDefinition`.  `logOutput` and `comment`
are stored exactly as passed (the constructor performs no check on them, so
a Python `None` argument stays `None`; hence `Option String`); `delay`,
`save` and `skipOid` go through an `isinstance(..., str)` check and fall
back to the `"NA"` sentinel. -/
structure QADeviceSimulatorDefinition where
  oid : String
  type : String
  returnValue : String
  logOutput : Option String
  comment : Option String
  delay : String
  save : String
  skipOid : String
  deriving DecidableEq

/-- Constructor semantics of `QADeviceSimulatorDefinition.__init__`: a
`some s` argument models a `str` value, `none` models Python `None`.  Only
`delay`, `save` and `skipOid` are defaulted to `"NA"` when not a string. -/
def QADeviceSimulatorDefinition.make (oid type returnValue : String)
    (logOutput comment delay save skipOid : Option String) :
    QADeviceSimulatorDefinition :=
  ⟨oid, type, returnValue, logOutput, comment,
    delay.getD "NA", save.getD "NA", skipOid.getD "NA"⟩

/-- An XML element as seen by the parser: its XML attribute dictionary
(`element.attrib`).  Keys are unique in an attribute dictionary. -/
structure XmlElement where
  attrib : List (String × String)
  deriving DecidableEq

/-- Dictionary lookup `element.attrib[key]`, `none` modelling a `KeyError`. -/
def XmlElement.attribGet (e : XmlElement) (key : String) : Option String :=
  (e.attrib.find? (fun p => p.1 == key)).map (fun p => p.2)

/-- Models `hasattr(simulationRecord, name)` for the attribute names the
parser tests (`LogOutput`, `Comment`, `Delay`, `Save`, `SkipOID`): an
`xml.etree` `Element` object never exposes XML attributes as Python object
attributes (they live in `.attrib`), so the test is `False` for every
element. -/
def elementHasattr (_e : XmlElement) (_name : String) : Bool :=
  false

/-- Per-element body of `ParseQADeviceSimulatorFile`: required attributes
`OID`, `Type`, `ReturnValue` are read without an existence check (a missing
one raises `KeyError`, aborting the whole parse, modelled by `none`); the
optional ones are read only behind the always-false `hasattr` test. -/
def parseDefinition (e : XmlElement) : Option QADeviceSimulatorDefinition :=
  match e.attribGet "OID", e.attribGet "Type", e.attribGet "ReturnValue" with
  | some oid, some ty, some rv =>
    some (QADeviceSimulatorDefinition.make oid ty rv
      (if elementHasattr e "LogOutput" then e.attribGet "LogOutput" else none)
      (if elementHasattr e "Comment" then e.attribGet "Comment" else none)
      (if elementHasattr e "Delay" then e.attribGet "Delay" else none)
      (if elementHasattr e "Save" then e.attribGet "Save" else none)
      (if elementHasattr e "SkipOID" then e.attribGet "SkipOID" else none))
  | _, _, _ => none

/-- Source function `ParseQADeviceSimulatorFile`, applied to the list of
`Definition` elements found in the file (in document order): each element is
parsed in turn, and a failure on any element aborts the whole parse. -/
def ParseQADeviceSimulatorFile (elems : List XmlElement) :
    Option (List QADeviceSimulatorDefinition) :=
  elems.mapM parseDefinition

/-- Message of the exception raised by `ConvertSimulationFile` on an unknown
OID type (the `format` call spelled out as concatenation). -/
def convertErrMsg (oid ty : String) : String :=
  "[ERROR]|ConvertSimulationFile|OID type not found for simulation record:OID:"
    ++ oid ++ ",OID Type:" ++ ty

/-- Source function `ConvertSimulationFile`: each definition whose type name
is an `OidType` member becomes a `SnmpsimRecord`; the first unknown type
name raises, the surrounding `try` turns that into an error return (the
partially built list is discarded), modelled by `Except.error`. -/
def ConvertSimulationFile :
    List QADeviceSimulatorDefinition → Except String (List SnmpsimRecord)
  | [] => Except.ok []
  | d :: ds =>
    match OidType d.type with
    | some code =>
      match ConvertSimulationFile ds with
      | Except.ok recs => Except.ok (⟨d.oid, code, d.returnValue⟩ :: recs)
      | Except.error e => Except.error e
    | none => Except.error (convertErrMsg d.oid d.type)

/-- Source function `GenerateSnmprecFile`, modelled as the list of rows
handed to the CSV writer (fields in the order `oid`, `oidType`, `value`,
written pipe-delimited).  An empty output path or an empty record list is a
reported precondition failure after which nothing is written, so those cases
yield no rows. -/
def GenerateSnmprecFile (recs : List SnmpsimRecord) (outputPath : String) :
    List (String × Nat × String) :=
  if outputPath = "" then []
  else if recs = [] then []
  else recs.map (fun r => (r.oid, r.oidType, r.value))

/-- Capture of the entity pattern body, after the literal `&#x`: the Python
alternation `(\d{1,2}|[a-zA-Z]|1[a-zA-Z])` followed by `;`, with the regex
engine's preference order (two digits, one digit, one letter, `1` plus a
letter; `\d` and `[a-zA-Z]` taken on ASCII).  Returns the captured
characters and the remainder after the `;`. -/
def entityCapture (cs : List Char) : Option (List Char × List Char) :=
  match cs with
  | c1 :: c2 :: c3 :: r =>
    if c1.isDigit && c2.isDigit && c3 = ';' then some ([c1, c2], r)
    else if c1.isDigit && c2 = ';' then some ([c1], c3 :: r)
    else if c1.isAlpha && c2 = ';' then some ([c1], c3 :: r)
    else if c1 = '1' && c2.isAlpha && c3 = ';' then some ([c1, c2], r)
    else none
  | [c1, c2] =>
    if (c1.isDigit || c1.isAlpha) && c2 = ';' then some ([c1], [])
    else none
  | _ => none

/-- Match of the substitution pattern `&#x(\d{1,2}|[a-zA-Z]|1[a-zA-Z]);` at
the head of the character list.  The search pattern
`&#x(\d{1,2});|&#x([a-zA-Z]|1[a-zA-Z]);` of the source matches exactly the
same strings (only its group structure differs), so one matcher serves both
uses. -/
def matchEntity : List Char → Option (List Char × List Char)
  | '&' :: '#' :: 'x' :: rest => entityCapture rest
  | _ => none

/-- Left-to-right, non-overlapping scan of `re.sub` with replacement
template `0\1.`: at a match, emit `0`, the capture, `.`, and continue after
the match; otherwise keep the character.  Fuel is the remaining length, a
bound never reached since every step consumes at least one character. -/
def substEntitiesAux : Nat → List Char → List Char
  | 0, s => s
  | _ + 1, [] => []
  | fuel + 1, c :: rest =>
    match matchEntity (c :: rest) with
    | some (cap, r) => '0' :: (cap ++ '.' :: substEntitiesAux fuel r)
    | none => c :: substEntitiesAux fuel rest

/-- Scan of `re.search` for the entity pattern: true when the pattern
matches at some position. -/
def searchEntity : List Char → Bool
  | [] => false
  | c :: rest => (matchEntity (c :: rest)).isSome || searchEntity rest

/-- Per-line body of `ValidateAndReplaceXmlFile`: a line on which the search
succeeds is rewritten by the substitution, any other line is kept
unchanged. -/
def sanitizeLine (s : String) : String :=
  if searchEntity s.data then ⟨substEntitiesAux s.data.length s.data⟩ else s

/-- Source function `ValidateAndReplaceXmlFile`, as the transformation of
the file's line list (the updated lines written to the `_updated.xml`
file). -/
def ValidateAndReplaceXmlFile (lines : List String) : List String :=
  lines.map sanitizeLine

/-- Strip of `re.sub(r"[\n\t\f\v]*", "", line)`: removal of every newline,
tab, form-feed and vertical-tab character (carriage returns are not in the
class and are kept). -/
def stripCtl (s : String) : String :=
  ⟨s.data.filter (fun c =>
    !(c.toNat = 10 || c.toNat = 9 || c.toNat = 12 || c.toNat = 11))⟩

/-- Models `str.isprintable` on the ASCII fragment: a character is printable
when it is in the range U+0020 to U+007E; the empty string is printable.
(Python decides non-ASCII code points by Unicode category; the walk captures
processed here are ASCII after re-encoding, and every theorem below holds
for any printability predicate.) -/
def pyIsPrintable (s : String) : Bool :=
  s.data.all (fun c => 32 ≤ c.toNat && c.toNat ≤ 126)

/-- Test `lineUpdated.startswith(".1.3.6.") or lineUpdated.startswith("1.3.6.")`. -/
def startsWithOid (s : String) : Bool :=
  ".1.3.6.".data.isPrefixOf s.data || "1.3.6.".data.isPrefixOf s.data

/-- First occurrence of `pat` in a character list: `some (before, after)`
splits around the leftmost match, `none` means no occurrence. -/
def splitAtSub (pat : List Char) : List Char → Option (List Char × List Char)
  | [] => if pat.isEmpty then some ([], []) else none
  | c :: rest =>
    if pat.isPrefixOf (c :: rest) then some ([], (c :: rest).drop pat.length)
    else
      match splitAtSub pat rest with
      | some p => some (c :: p.1, p.2)
      | none => none

/-- Substring test `s.find(pat) != -1`. -/
def strContains (s pat : String) : Bool :=
  (splitAtSub pat.data s.data).isSome

/-- Unit-marker test of the source:
`lineUpdated.find("TenthdBmV") != -1 or lineUpdated.find("TenthdB") != -1`. -/
def strContainsTenth (s : String) : Bool :=
  strContains s "TenthdBmV" || strContains s "TenthdB"

/-- Absent-object-marker test of the source. -/
def strContainsNoSuch (s : String) : Bool :=
  strContains s "No Such Object available on this agent at this OID"

/-- Models `str.partition(sep)`: split at the first occurrence of `sep`
into `(before, sep, after)`; when `sep` does not occur the result is
`(s, "", "")`. -/
def pyPartition (s pat : String) : String × String × String :=
  match splitAtSub pat.data s.data with
  | some p => (⟨p.1⟩, pat, ⟨p.2⟩)
  | none => (s, "", "")

/-- Character class kept by `re.sub('[^-?\d+\.]', "", ...)`: the class
lists the literals `-`, `?`, `+`, `.` and the digits, so exactly those are
kept (note that `?` and `+` are kept, they are class members, not
operators). -/
def numericKeepChar (c : Char) : Bool :=
  c = '-' || c = '?' || c.isDigit || c = '+' || c = '.'

/-- Strip applied to the text after the `INTEGER:` marker before the
`float(...)` conversion. -/
def pyFloatStrip (s : String) : String :=
  ⟨s.data.filter numericKeepChar⟩

/-- Value of a digit string. -/
def parseDigits (cs : List Char) : Nat :=
  cs.foldl (fun n c => 10 * n + (c.toNat - 48)) 0

/-- Unsigned part of Python `float(...)` on the strings reachable here
(after the strip no exponent letters remain): digits with an optional
fractional part; at least one digit overall; any other character raises
`ValueError` (`none`). -/
def parseUnsignedFloat (cs : List Char) : Option ℚ :=
  let ip := cs.takeWhile Char.isDigit
  let rest := cs.dropWhile Char.isDigit
  match rest with
  | [] => if ip.isEmpty then none else some (parseDigits ip : ℚ)
  | '.' :: frac =>
    if frac.all Char.isDigit && !(ip.isEmpty && frac.isEmpty) then
      some ((parseDigits ip : ℚ) + (parseDigits frac : ℚ) / (10 : ℚ) ^ frac.length)
    else none
  | _ => none

/-- Models Python `float(string)` on the character sets reachable after
`pyFloatStrip`: an optional leading sign followed by an unsigned number;
failure is `ValueError`.  The value is exact (see `pyTrunc` for the
rounding discussion). -/
def parsePyFloat (s : String) : Option ℚ :=
  match s.data with
  | '-' :: rest => (parseUnsignedFloat rest).map (fun q => -q)
  | '+' :: rest => parseUnsignedFloat rest
  | cs => parseUnsignedFloat cs

/-- Truncation toward zero of `int(float)`, i.e. the truncating division of
the numerator by the denominator.  The source computes `int(rawValue * 10)`
in double precision while this model is exact rational arithmetic; on every
concrete input appearing in the theorems below the double computation is
exact after rounding (for instance `float("12.3") * 10` is exactly `123.0`,
the product rounding tie going to the even mantissa), so model and source
agree there. -/
def pyTrunc (q : ℚ) : ℤ :=
  q.num.tdiv q.den

/-- Current line after the continuation-stitching step 3 of the loop body:
a stripped line that starts with an OID prefix stays itself, any other line
is appended to the previous record. -/
def stitchLine (prev line : String) : String :=
  if startsWithOid (stripCtl line) then stripCtl line
  else prev ++ stripCtl line

/-- One iteration of the `for line in inTextFile` loop of `main` in
`snmpwalk_to_snmpsim.py`.  The result is `some (previousLine afterwards,
lines written during the iteration)`; `none` models the uncaught
`ValueError` of `float(...)` in the unit branch, which aborts the whole
script.  Branches in source order: non-printable skip; continuation
stitch (which already reassigns `previousLine`); unit rewrite with an
immediate write; absent-object drop; the delayed write of `previousLine`
followed by the advance. -/
def processLine (prev line : String) : Option (String × List String) :=
  let lu0 := stripCtl line
  if pyIsPrintable lu0 then
    let lu := if startsWithOid lu0 then lu0 else prev ++ lu0
    let prev1 := if startsWithOid lu0 then prev else lu
    if strContainsTenth lu then
      let t := pyPartition lu "INTEGER:"
      match parsePyFloat (pyFloatStrip t.2.2) with
      | none => none
      | some q =>
        some (t.1 ++ t.2.1 ++ " " ++ toString (pyTrunc (q * 10)),
          [t.1 ++ t.2.1 ++ " " ++ toString (pyTrunc (q * 10))])
    else if strContainsNoSuch lu then some (prev1, [])
    else some (lu, [prev1])
  else some (prev, [])

/-- Result of running the line loop: the lines written to the output file,
the final value of `previousLine`, and whether the run aborted on an
uncaught exception. -/
structure RunResult where
  outputs : List String
  finalPrev : String
  crashed : Bool
  deriving DecidableEq

/-- Run of the loop from a given `previousLine` over the remaining input
lines.  A crash keeps the lines already written and stops. -/
def runLines (prev : String) : List String → RunResult
  | [] => ⟨[], prev, false⟩
  | l :: ls =>
    match processLine prev l with
    | none => ⟨[], prev, true⟩
    | some pr =>
      let r := runLines pr.1 ls
      ⟨pr.2 ++ r.outputs, r.finalPrev, r.crashed⟩

/-- Whole Line Normalizer of `main`: `previousLine` starts as the empty
string and the loop runs over all input lines; nothing is flushed at end of
input. -/
def normalizeWalk (lines : List String) : RunResult :=
  runLines "" lines

/-- Spec wording of the unit-rewrite strip, for contrast with the source's
`numericKeepChar` (refinement comparison): keep only digits, the minus sign
and the decimal point. -/
def specNumericStrip (s : String) : String :=
  ⟨s.data.filter (fun c => c.isDigit || c = '-' || c = '.')⟩

/-- Step-6 characterization of the loop body: a printable line whose
(possibly stitched) current form contains neither the unit marker nor the
absent-object marker triggers the delayed write.  The written line is the
value `previousLine` holds after the stitching step — the original `prev`
when the line starts with an OID prefix, the stitched line otherwise — and
`previousLine` then advances to the current (possibly stitched) line. -/
theorem processLine_step6 (prev line : String)
    (hpr : pyIsPrintable (stripCtl line) = true)
    (hT : strContainsTenth (stitchLine prev line) = false)
    (hN : strContainsNoSuch (stitchLine prev line) = false) :
    processLine prev line =
      some (stitchLine prev line,
        [if startsWithOid (stripCtl line) then prev else stitchLine prev line]) := by
  cases hso : startsWithOid (stripCtl line) with
  | false =>
    simp only [stitchLine, hso, Bool.false_eq_true, if_false] at hT hN ⊢
    simp [processLine, hpr, hso, hT, hN]
  | true =>
    simp only [stitchLine, hso, if_true] at hT hN ⊢
    simp [processLine, hpr, hso, hT, hN]

/-- Splitting a run of the line loop at a list append: once the first part
has run (and has not crashed), the second part continues from the carried
`previousLine`. -/
theorem runLines_append (p : String) (ls ms : List String) :
    runLines p (ls ++ ms) =
      if (runLines p ls).crashed then runLines p ls
      else
        ⟨(runLines p ls).outputs ++ (runLines (runLines p ls).finalPrev ms).outputs,
          (runLines (runLines p ls).finalPrev ms).finalPrev,
          (runLines (runLines p ls).finalPrev ms).crashed⟩ := by
  induction ls generalizing p with
  | nil => simp [runLines]
  | cons a as ih =>
    simp only [List.cons_append, runLines]
    cases hpl : processLine p a with
    | none => simp [runLines, hpl]
    | some pr =>
      simp only [runLines, hpl, List.append_eq]
      rw [ih pr.1]
      cases hc : (runLines pr.1 as).crashed with
      | false => simp [hc, List.append_assoc]
      | true => simp [hc]

/-- C1: for a definition list whose type names all key into the `OidType`
table (and a non-empty output path, the Emit Stage precondition), the Map
Stage succeeds and the Emit Stage produces exactly one row per input
definition, in input order, each row carrying the definition's `oid` and
`returnValue` unchanged and the type code obtained by the table lookup of
its type name. -/
theorem c1_map_emit_roundtrip (defs : List QADeviceSimulatorDefinition)
    (outputPath : String)
    (hvalid : ∀ d ∈ defs, (OidType d.type).isSome = true)
    (hpath : outputPath ≠ "") :
    ∃ recs, ConvertSimulationFile defs = Except.ok recs ∧
      GenerateSnmprecFile recs outputPath =
        defs.map (fun d => (d.oid, (OidType d.type).getD 0, d.returnValue)) ∧
      ∀ d ∈ defs, OidType d.type = some ((OidType d.type).getD 0) := by
  have hconv : ∀ l : List QADeviceSimulatorDefinition,
      (∀ d ∈ l, (OidType d.type).isSome = true) →
      ConvertSimulationFile l =
        Except.ok (l.map (fun d =>
          (⟨d.oid, (OidType d.type).getD 0, d.returnValue⟩ : SnmpsimRecord))) := by
    intro l
    induction l with
    | nil => intro _; rfl
    | cons d ds ih =>
      intro hl
      obtain ⟨c, hc⟩ := Option.isSome_iff_exists.mp (hl d (List.mem_cons_self d ds))
      have ihds := ih (fun x hx => hl x (List.mem_cons_of_mem d hx))
      simp [ConvertSimulationFile, hc, ihds]
  refine ⟨_, hconv defs hvalid, ?_, ?_⟩
  · by_cases hd : defs = []
    · subst hd; simp [GenerateSnmprecFile]
    · have hmapne : defs.map (fun d =>
          (⟨d.oid, (OidType d.type).getD 0, d.returnValue⟩ : SnmpsimRecord)) ≠ [] := by
        simpa using hd
      simp only [GenerateSnmprecFile, if_neg hpath, if_neg hmapne, List.map_map]
      rfl
  · intro d hd
    obtain ⟨c, hc⟩ := Option.isSome_iff_exists.mp (hvalid d hd)
    rw [hc]
    rfl

/-- Witness for C1 at a concrete two-definition list. -/
theorem c1_map_emit_roundtrip_witness :
    (∀ d ∈ [(⟨"1.3.6.1.2.1", "Integer32", "42", none, none, "NA", "NA", "NA"⟩ :
        QADeviceSimulatorDefinition),
      ⟨"1.3.6.1.2.2", "OctetString", "abc", none, none, "NA", "NA", "NA"⟩],
        (OidType d.type).isSome = true) ∧
    ("out.snmprec" : String) ≠ "" ∧
    (∃ recs,
      ConvertSimulationFile
        [⟨"1.3.6.1.2.1", "Integer32", "42", none, none, "NA", "NA", "NA"⟩,
          ⟨"1.3.6.1.2.2", "OctetString", "abc", none, none, "NA", "NA", "NA"⟩] =
        Except.ok recs ∧
      GenerateSnmprecFile recs "out.snmprec" =
        ([(⟨"1.3.6.1.2.1", "Integer32", "42", none, none, "NA", "NA", "NA"⟩ :
            QADeviceSimulatorDefinition),
          ⟨"1.3.6.1.2.2", "OctetString", "abc", none, none, "NA", "NA", "NA"⟩].map
          (fun d => (d.oid, (OidType d.type).getD 0, d.returnValue))) ∧
      ∀ d ∈ [(⟨"1.3.6.1.2.1", "Integer32", "42", none, none, "NA", "NA", "NA"⟩ :
          QADeviceSimulatorDefinition),
        ⟨"1.3.6.1.2.2", "OctetString", "abc", none, none, "NA", "NA", "NA"⟩],
          OidType d.type = some ((OidType d.type).getD 0)) :=
  ⟨by decide, by decide,
    c1_map_emit_roundtrip _ "out.snmprec" (by decide) (by decide)⟩

/-- C5: a definition list containing an entry whose type name is not in the
`OidType` table makes the Map Stage abort as a whole: the result is the
error naming the offending oid and type name (the message format of the
raised exception), and no record list is returned — the records mapped
before the failing entry are discarded. -/
theorem c5_unknown_type_aborts (pre post : List QADeviceSimulatorDefinition)
    (d : QADeviceSimulatorDefinition)
    (hpre : ∀ x ∈ pre, (OidType x.type).isSome = true)
    (hd : OidType d.type = none) :
    ConvertSimulationFile (pre ++ d :: post) =
      Except.error (convertErrMsg d.oid d.type) := by
  induction pre with
  | nil => simp [ConvertSimulationFile, hd]
  | cons x xs ih =>
    obtain ⟨c, hc⟩ := Option.isSome_iff_exists.mp (hpre x (List.mem_cons_self x xs))
    have ih2 := ih (fun y hy => hpre y (List.mem_cons_of_mem x hy))
    simp [ConvertSimulationFile, hc, ih2]

/-- Witness for C5: one valid definition followed by a `Bogus` one. -/
theorem c5_unknown_type_aborts_witness :
    (∀ x ∈ [(⟨"1.3.6.1.9.1", "Counter32", "5", none, none, "NA", "NA", "NA"⟩ :
        QADeviceSimulatorDefinition)], (OidType x.type).isSome = true) ∧
    OidType (QADeviceSimulatorDefinition.type
      ⟨"1.3.6.1.9.2", "Bogus", "0", none, none, "NA", "NA", "NA"⟩) = none ∧
    ConvertSimulationFile
      ([⟨"1.3.6.1.9.1", "Counter32", "5", none, none, "NA", "NA", "NA"⟩] ++
        (⟨"1.3.6.1.9.2", "Bogus", "0", none, none, "NA", "NA", "NA"⟩ :
          QADeviceSimulatorDefinition) :: []) =
      Except.error (convertErrMsg "1.3.6.1.9.2" "Bogus") :=
  ⟨by decide, by decide,
    c5_unknown_type_aborts _ [] _ (by decide) (by decide)⟩

/-- C6 counterexample: `ObjectIdentifier` does not resolve to code 6 — it is
not a member name of the table at all (the member is commented out in the
source), refuting the claimed `ObjectId`/`ObjectIdentifier` alias pair. -/
theorem c6_counterexample : OidType "ObjectIdentifier" ≠ some 6 := by decide

/-- C6 amended: `ObjectId` resolves to 6 and `ObjectIdentifier` fails to
resolve; `IpAddress` and `IPAddress` both resolve to 64; lookup succeeds
only for the exact member spellings, not case-insensitively. -/
theorem c6_alias_lookup :
    OidType "ObjectId" = some 6 ∧ OidType "ObjectIdentifier" = none ∧
    OidType "IpAddress" = some 64 ∧ OidType "IPAddress" = some 64 ∧
    enumContainsName "objectid" = false ∧ enumContainsName "OBJECTID" = false ∧
    enumContainsName "ipaddress" = false ∧ enumContainsName "INTEGER32" = false := by
  decide

/-- C7 counterexample: an element carrying only the required attributes
parses to a definition whose `logOutput` (and `comment`) field is the
Python `None` value, not the `"NA"` sentinel the claim asserts. -/
theorem c7_counterexample :
    parseDefinition ⟨[("OID", "1.3.6.1.4.1"), ("Type", "Integer32"),
        ("ReturnValue", "7")]⟩ =
      some ⟨"1.3.6.1.4.1", "Integer32", "7", none, none, "NA", "NA", "NA"⟩ ∧
    (none : Option String) ≠ some "NA" := ⟨by decide, by decide⟩

/-- C7 amended: for any element whose required attributes are present,
absent `Delay`, `Save` and `SkipOID` yield the `"NA"` sentinel, while
absent `LogOutput` and `Comment` yield `None` (no sentinel).  In fact the
`hasattr` tests never see XML attributes, so this holds whether or not the
optional attributes are present. -/
theorem c7_optional_defaults (e : XmlElement) (oid ty rv : String)
    (h1 : e.attribGet "OID" = some oid) (h2 : e.attribGet "Type" = some ty)
    (h3 : e.attribGet "ReturnValue" = some rv) :
    parseDefinition e = some ⟨oid, ty, rv, none, none, "NA", "NA", "NA"⟩ := by
  simp [parseDefinition, h1, h2, h3, elementHasattr,
    QADeviceSimulatorDefinition.make]

/-- Witness for C7 at an element that even carries a `Delay` attribute —
the parsed `delay` field is still the sentinel. -/
theorem c7_optional_defaults_witness :
    XmlElement.attribGet ⟨[("OID", "1.3.6.1.4.2"), ("Type", "Gauge32"),
        ("ReturnValue", "9"), ("Delay", "5")]⟩ "OID" = some "1.3.6.1.4.2" ∧
    XmlElement.attribGet ⟨[("OID", "1.3.6.1.4.2"), ("Type", "Gauge32"),
        ("ReturnValue", "9"), ("Delay", "5")]⟩ "Type" = some "Gauge32" ∧
    XmlElement.attribGet ⟨[("OID", "1.3.6.1.4.2"), ("Type", "Gauge32"),
        ("ReturnValue", "9"), ("Delay", "5")]⟩ "ReturnValue" = some "9" ∧
    parseDefinition ⟨[("OID", "1.3.6.1.4.2"), ("Type", "Gauge32"),
        ("ReturnValue", "9"), ("Delay", "5")]⟩ =
      some ⟨"1.3.6.1.4.2", "Gauge32", "9", none, none, "NA", "NA", "NA"⟩ :=
  ⟨by decide, by decide, by decide,
    c7_optional_defaults _ _ _ _ (by decide) (by decide) (by decide)⟩

/-- C4 counterexample: the entity `&#x1D;` is not rewritten to `0D.` — the
capture is the two characters `1D` and the replacement template prepends a
zero, giving `01D.`. -/
theorem c4_counterexample : sanitizeLine "&#x1D;" ≠ "0D." := by decide

/-- C4 amended: each match is rewritten to `0`, the captured characters,
then a dot: `&#x1D;` becomes `01D.`, `&#x00;` becomes `000.`, `&#x5;`
becomes `05.` (only one-character captures get a two-character numeral),
and a line without a match passes through unchanged. -/
theorem c4_entity_repair :
    sanitizeLine "&#x1D;" = "01D." ∧ sanitizeLine "&#x00;" = "000." ∧
    sanitizeLine "&#x5;" = "05." ∧
    ∀ s : String, searchEntity s.data = false → sanitizeLine s = s := by
  refine ⟨by decide, by decide, by decide, ?_⟩
  intro s h
  simp [sanitizeLine, h]

/-- Witness for C4's no-match clause at a plain line. -/
theorem c4_entity_repair_witness :
    searchEntity "a plain walk line with no entity".data = false ∧
    sanitizeLine "a plain walk line with no entity" =
      "a plain walk line with no entity" :=
  ⟨by decide, c4_entity_repair.2.2.2 _ (by decide)⟩

/-- C2 counterexample: a continuation line reaching step 6 does not get the
pre-processing value of `previousLine` written — the stitch of step 3 has
already reassigned `previousLine`, so the stitched line itself is written.
On `[".1.3.6.1 A", "cont"]` the write triggered by `"cont"` is the stitched
`".1.3.6.1 Acont"`, not the prior state `".1.3.6.1 A"`. -/
theorem c2_counterexample :
    (normalizeWalk [".1.3.6.1 A", "cont"]).outputs = ["", ".1.3.6.1 Acont"] ∧
    (".1.3.6.1 Acont" : String) ≠ ".1.3.6.1 A" := ⟨by decide, by decide⟩

/-- C2 amended: for a line reaching step 6, the written line is the value
`previousLine` holds after the stitching step — the pre-processing value
exactly when the line starts with an OID prefix, and the stitched line
(previous concatenated with current) when it was stitched in step 3;
afterwards `previousLine` equals the current (possibly stitched) line. -/
theorem c2_step6_write (prev line : String)
    (hpr : pyIsPrintable (stripCtl line) = true)
    (hT : strContainsTenth (stitchLine prev line) = false)
    (hN : strContainsNoSuch (stitchLine prev line) = false) :
    processLine prev line =
      some (stitchLine prev line,
        [if startsWithOid (stripCtl line) then prev else stitchLine prev line]) :=
  processLine_step6 prev line hpr hT hN

/-- Witness for C2 at a stitched concrete line. -/
theorem c2_step6_write_witness :
    pyIsPrintable (stripCtl "cont") = true ∧
    strContainsTenth (stitchLine ".1.3.6.1 A" "cont") = false ∧
    strContainsNoSuch (stitchLine ".1.3.6.1 A" "cont") = false ∧
    processLine ".1.3.6.1 A" "cont" =
      some (stitchLine ".1.3.6.1 A" "cont",
        [if startsWithOid (stripCtl "cont") then ".1.3.6.1 A"
          else stitchLine ".1.3.6.1 A" "cont"]) :=
  ⟨by decide, by decide, by decide,
    c2_step6_write ".1.3.6.1 A" "cont" (by decide) (by decide) (by decide)⟩

/-- C3 counterexample: the absent-object marker can reach the output file.
A marker line without the OID prefix is stitched into `previousLine` before
the drop check, and a later normal line flushes that stitched record, so
the marker substring appears in an output line. -/
theorem c3_counterexample :
    (normalizeWalk [".1.3.6.1 foo",
        "No Such Object available on this agent at this OID",
        ".1.3.6.2 bar"]).outputs =
      ["", ".1.3.6.1 fooNo Such Object available on this agent at this OID"] ∧
    strContainsNoSuch
      ".1.3.6.1 fooNo Such Object available on this agent at this OID" = true :=
  ⟨by decide, by decide⟩

/-- C3 amended: a line whose (possibly stitched) current form contains the
absent-object marker is never written at its own step — the drop branch
emits nothing — but when the marker line was stitched, `previousLine` has
already become the stitched marker-carrying record, which a later
triggering line can write to the output. -/
theorem c3_drop_branch (prev line : String)
    (hpr : pyIsPrintable (stripCtl line) = true)
    (hT : strContainsTenth (stitchLine prev line) = false)
    (hN : strContainsNoSuch (stitchLine prev line) = true) :
    processLine prev line =
      some (if startsWithOid (stripCtl line) then prev else stitchLine prev line,
        []) := by
  cases hso : startsWithOid (stripCtl line) with
  | false =>
    simp only [stitchLine, hso, Bool.false_eq_true, if_false] at hT hN ⊢
    simp [processLine, hpr, hso, hT, hN]
  | true =>
    simp only [stitchLine, hso, if_true] at hT hN ⊢
    simp [processLine, hpr, hso, hT, hN]

/-- Witness for C3 at a verbatim marker line following a normal record. -/
theorem c3_drop_branch_witness :
    pyIsPrintable
      (stripCtl "No Such Object available on this agent at this OID") = true ∧
    strContainsTenth (stitchLine ".1.3.6.1 x"
      "No Such Object available on this agent at this OID") = false ∧
    strContainsNoSuch (stitchLine ".1.3.6.1 x"
      "No Such Object available on this agent at this OID") = true ∧
    processLine ".1.3.6.1 x"
        "No Such Object available on this agent at this OID" =
      some (if startsWithOid
          (stripCtl "No Such Object available on this agent at this OID")
        then ".1.3.6.1 x"
        else stitchLine ".1.3.6.1 x"
          "No Such Object available on this agent at this OID", []) :=
  ⟨by decide, by decide, by decide,
    c3_drop_branch ".1.3.6.1 x"
      "No Such Object available on this agent at this OID"
      (by decide) (by decide) (by decide)⟩

/-- C9 counterexample: the strip before the numeric parse keeps `?` and `+`
as well (they are members of the character class `[^-?\d+\.]`), so it is
not the claimed digits/minus/dot strip.  On the unit-marker line
`.1.3.6.1 = INTEGER: 1+1 TenthdB` the kept `+` makes `float` raise and the
run abort with nothing written, while the claim's strip would have parsed
`11` (and written a rewritten line ending in `INTEGER: 110`). -/
theorem c9_counterexample :
    (normalizeWalk [".1.3.6.1 = INTEGER: 1+1 TenthdB"]).outputs = [] ∧
    (normalizeWalk [".1.3.6.1 = INTEGER: 1+1 TenthdB"]).crashed = true ∧
    pyFloatStrip " 1+1 TenthdB" = "1+1" ∧
    parsePyFloat (pyFloatStrip " 1+1 TenthdB") = none ∧
    specNumericStrip " 1+1 TenthdB" = "11" ∧
    (parsePyFloat (specNumericStrip " 1+1 TenthdB")).isSome = true := by
  refine ⟨by decide, by decide, by decide, by decide, by decide, ?_⟩
  rfl

/-- C9 amended: a unit-marker line is split at the first `INTEGER:`, the
remainder is stripped to the characters of the class (digits, minus, plus,
question mark, dot), parsed as a number, scaled by ten and truncated; on
the well-formed example the line `.1.3.6.1 = INTEGER: 12.3 TenthdBmV` is
rewritten to `.1.3.6.1 = INTEGER: 123` and written immediately, whatever
`previousLine` holds. -/
theorem c9_unit_rewrite (prev : String) :
    processLine prev ".1.3.6.1 = INTEGER: 12.3 TenthdBmV" =
      some (".1.3.6.1 = INTEGER: 123", [".1.3.6.1 = INTEGER: 123"]) := by
  have key : processLine prev ".1.3.6.1 = INTEGER: 12.3 TenthdBmV" =
      some (".1.3.6.1 = INTEGER: "
          ++ toString (pyTrunc (((12 : ℚ) + 3 / 10 ^ 1) * 10)),
        [".1.3.6.1 = INTEGER: "
          ++ toString (pyTrunc (((12 : ℚ) + 3 / 10 ^ 1) * 10))]) := rfl
  have h : pyTrunc (((12 : ℚ) + 3 / 10 ^ 1) * 10) = 123 := by
    have h2 : (((12 : ℚ) + 3 / 10 ^ 1) * 10) = 123 := by norm_num
    rw [h2]
    unfold pyTrunc
    norm_num
  rw [key, h]
  rfl

/-- C10: `previousLine` starts as the empty string, so when the first input
line is a normal record (printable, OID prefix, no unit marker, no
absent-object marker) the first line written is the empty string — the
output begins with a spurious blank line. -/
theorem c10_leading_blank (l : String) (ls : List String)
    (hpr : pyIsPrintable (stripCtl l) = true)
    (hoid : startsWithOid (stripCtl l) = true)
    (hT : strContainsTenth (stripCtl l) = false)
    (hN : strContainsNoSuch (stripCtl l) = false) :
    (normalizeWalk (l :: ls)).outputs.head? = some "" := by
  have hst : stitchLine "" l = stripCtl l := by simp [stitchLine, hoid]
  have h6 := processLine_step6 "" l hpr (by rw [hst]; exact hT)
    (by rw [hst]; exact hN)
  rw [hst, hoid] at h6
  simp only [if_true] at h6
  unfold normalizeWalk
  simp [runLines, h6]

/-- Witness for C10 at a one-line input. -/
theorem c10_leading_blank_witness :
    pyIsPrintable (stripCtl ".1.3.6.1 = STRING: up") = true ∧
    startsWithOid (stripCtl ".1.3.6.1 = STRING: up") = true ∧
    strContainsTenth (stripCtl ".1.3.6.1 = STRING: up") = false ∧
    strContainsNoSuch (stripCtl ".1.3.6.1 = STRING: up") = false ∧
    (normalizeWalk [".1.3.6.1 = STRING: up"]).outputs.head? = some "" :=
  ⟨by decide, by decide, by decide, by decide,
    c10_leading_blank ".1.3.6.1 = STRING: up" []
      (by decide) (by decide) (by decide) (by decide)⟩

/-- C8: end of input forces no flush.  When the input ends in a normal
record line (printable, OID prefix, no unit marker, no absent-object
marker) and the earlier lines did not crash the run, processing that last
line writes only the previously carried record; the last line itself
remains only in `previousLine` and is absent from the output. -/
theorem c8_no_final_flush (ls : List String) (l : String)
    (hpr : pyIsPrintable (stripCtl l) = true)
    (hoid : startsWithOid (stripCtl l) = true)
    (hT : strContainsTenth (stripCtl l) = false)
    (hN : strContainsNoSuch (stripCtl l) = false)
    (hok : (normalizeWalk ls).crashed = false) :
    (normalizeWalk (ls ++ [l])).outputs =
      (normalizeWalk ls).outputs ++ [(normalizeWalk ls).finalPrev] ∧
    (normalizeWalk (ls ++ [l])).finalPrev = stripCtl l ∧
    (normalizeWalk (ls ++ [l])).crashed = false := by
  have hstep : ∀ p : String, processLine p l = some (stripCtl l, [p]) := by
    intro p
    have hst : stitchLine p l = stripCtl l := by simp [stitchLine, hoid]
    have h6 := processLine_step6 p l hpr (by rw [hst]; exact hT)
      (by rw [hst]; exact hN)
    rw [hst, hoid] at h6
    simpa using h6
  unfold normalizeWalk at hok ⊢
  rw [runLines_append]
  simp [hok, runLines, hstep]

/-- Witness for C8: a one-record prefix followed by a final record line. -/
theorem c8_no_final_flush_witness :
    pyIsPrintable (stripCtl ".1.3.6.2 B") = true ∧
    startsWithOid (stripCtl ".1.3.6.2 B") = true ∧
    strContainsTenth (stripCtl ".1.3.6.2 B") = false ∧
    strContainsNoSuch (stripCtl ".1.3.6.2 B") = false ∧
    (normalizeWalk [".1.3.6.1 A"]).crashed = false ∧
    ((normalizeWalk ([".1.3.6.1 A"] ++ [".1.3.6.2 B"])).outputs =
      (normalizeWalk [".1.3.6.1 A"]).outputs ++
        [(normalizeWalk [".1.3.6.1 A"]).finalPrev] ∧
    (normalizeWalk ([".1.3.6.1 A"] ++ [".1.3.6.2 B"])).finalPrev =
      stripCtl ".1.3.6.2 B" ∧
    (normalizeWalk ([".1.3.6.1 A"] ++ [".1.3.6.2 B"])).crashed = false) :=
  ⟨by decide, by decide, by decide, by decide, by decide,
    c8_no_final_flush [".1.3.6.1 A"] ".1.3.6.2 B"
      (by decide) (by decide) (by decide) (by decide) (by decide)⟩

/-- Witness for C9 at the empty carried `previousLine`. -/
theorem c9_unit_rewrite_witness :
    processLine "" ".1.3.6.1 = INTEGER: 12.3 TenthdBmV" =
      some (".1.3.6.1 = INTEGER: 123", [".1.3.6.1 = INTEGER: 123"]) :=
  c9_unit_rewrite ""
